import Mathlib

/-!
Verification of the interactive state and scoring logic of the AI Practice
Framework app (AI.py).

The app has three small cores:

* a maturity scorer: eight slider ratings in [0,5] are summed and turned
  into a percentage by the Python expression
  `round((total / (len(values) * 5)) * 100)`, displayed next to a fixed
  three-band interpretation legend (0-30 Foundational, 31-65 Emerging,
  66-100 Scaling);
* a sidebar navigator: a radio over eight fixed page names whose initial
  index falls back to 0 when the stored page is not in the list, plus a
  Reset State button that sets only the slide index to 0;
* a showcase stepper over four slides with saturating Prev/Next handlers
  (`max(0, idx - 1)` and `min(len(slides) - 1, idx + 1)`) whose buttons are
  disabled exactly at the endpoints.

Python computes `total / 40` and `* 100` in IEEE-754 binary64 and `round`
rounds half to even.  The embedding models that arithmetic exactly over
pairs of naturals `(num, den)`: `flN a b` is the binary64 value nearest to
`a / b` (the model is validated against CPython; every intermediate double
of the pipeline is exactly representable as such a dyadic fraction).  The
JSON snapshot export `json.dumps({"maturity": values}, indent=2)` is
modelled by `dumps`, and `loads` is a reader for the produced format used
to state the round-trip property.
-/

set_option maxRecDepth 40000

/-- Round half to even of the fraction `a / b` (for `b > 0`): the rounding
used both by IEEE-754 round-to-nearest and by Python's `round`. -/
def roundHalfEvenN (a b : Nat) : Nat :=
  let f := a / b
  let r := a % b
  if 2 * r < b then f
  else if 2 * r > b then f + 1
  else if f % 2 = 0 then f else f + 1

/-- Fuel-bounded search: largest `e` with `b * 2 ^ e ≤ a`, for `b ≤ a`. -/
def log2Down : Nat → Nat → Nat → Nat
  | 0, _, _ => 0
  | fuel + 1, a, b => if a < 2 * b then 0 else log2Down fuel a (2 * b) + 1

/-- Fuel-bounded search: smallest `k` with `b ≤ a * 2 ^ k`, for `a < b`. -/
def log2Up : Nat → Nat → Nat → Nat
  | 0, _, _ => 0
  | fuel + 1, a, b => if b ≤ a then 0 else log2Up fuel (2 * a) b + 1

/-- Floor of the base-2 logarithm of the positive fraction `a / b`. -/
def flog2 (a b : Nat) : Int :=
  if b ≤ a then (log2Down (a + b) a b : Int) else -(log2Up (a + b) a b : Int)

/-- The IEEE-754 binary64 value nearest to the positive fraction `a / b`
(round to nearest, ties to even on the 53-bit significand), returned as a
dyadic fraction `(num, den)`.  Normal range only, which covers every value
arising in the percentage pipeline. -/
def flRound (a b : Nat) : Nat × Nat :=
  let e := flog2 a b
  if 52 ≤ e then
    let m := roundHalfEvenN a (b * 2 ^ (e - 52).toNat)
    (m * 2 ^ (e - 52).toNat, 1)
  else
    let m := roundHalfEvenN (a * 2 ^ (52 - e).toNat) b
    (m, 2 ^ (52 - e).toNat)

/-- Binary64 rounding of `a / b`, with the zero case split off. -/
def flN (a b : Nat) : Nat × Nat :=
  if a = 0 then (0, 1) else flRound a b

/-- Python's `round((t / d) * 100)` evaluated in binary64: a correctly
rounded float division, a correctly rounded float multiplication by 100,
then `round` (half to even) on the exact value of the resulting double. -/
def pyRoundFloat (t d : Nat) : Nat :=
  let q1 := flN t d
  let q2 := flN (q1.1 * 100) q1.2
  roundHalfEvenN q2.1 q2.2

/-- The exact-arithmetic reading of `round(total / 40 × 100)` used by the
spec: round half to even of the rational `(100 * t) / 40`. -/
def exactRound (t : Nat) : Nat := roundHalfEvenN (100 * t) 40

/-- The slider axis names of the Maturity Diagnostic page
(`keys = ["Strategy", ..., "Ecosystem"]` in the source). -/
def keys : List String :=
  ["Strategy", "Governance", "Innovation", "Architecture", "Validation",
   "Delivery", "Enablement", "Ecosystem"]

/-- The `DEFAULT_MATURITY` dict of the source. -/
def DEFAULT_MATURITY : List (String × Nat) :=
  [("Strategy", 3), ("Governance", 2), ("Innovation", 3), ("Architecture", 2),
   ("Validation", 2), ("Delivery", 3), ("Enablement", 2), ("Ecosystem", 2)]

/-- The per-axis slider default: `DEFAULT_MATURITY.get(k, 2)`. -/
def defaultRatings : String → Nat := fun k => (DEFAULT_MATURITY.lookup k).getD 2

/-- The `values` dict built by the slider loop of the Maturity Diagnostic
page: one entry per axis name in `keys`, holding the user rating `r k`. -/
def mkValues (r : String → Nat) : List (String × Nat) :=
  keys.map fun k => (k, r k)

/-- `total = sum(values.values())`. -/
def computeTotal (values : List (String × Nat)) : Nat :=
  (values.map Prod.snd).sum

/-- `pct = round((total / (len(values) * 5)) * 100)` with Python float
semantics. -/
def computePct (values : List (String × Nat)) : Nat :=
  pyRoundFloat (computeTotal values) (values.length * 5)

/-- The percentage as a function of the total alone (denominator 40). -/
def pyPct (t : Nat) : Nat := pyRoundFloat t 40

/-- The three-band rule of the Interpretation legend on the Maturity
Diagnostic page: 0-30% Foundational, 31-65% Emerging, 66-100% Scaling
(inclusive bounds as displayed). -/
def band (pct : Nat) : String :=
  if pct ≤ 30 then "Foundational"
  else if pct ≤ 65 then "Emerging"
  else "Scaling"

/-- Ratings summing to 23: axes Strategy..Architecture at 5, Validation 3. -/
def ratings23 : String → Nat := fun k =>
  if k = "Strategy" then 5 else if k = "Governance" then 5
  else if k = "Innovation" then 5 else if k = "Architecture" then 5
  else if k = "Validation" then 3 else 0

/-- Ratings summing to 1. -/
def ratings1 : String → Nat := fun k => if k = "Strategy" then 1 else 0

/-- Ratings summing to 3. -/
def ratings3 : String → Nat := fun k => if k = "Strategy" then 3 else 0

/-- Ratings summing to 19. -/
def ratings19 : String → Nat := fun k =>
  if k = "Strategy" then 5 else if k = "Governance" then 5
  else if k = "Innovation" then 5 else if k = "Architecture" then 4 else 0

theorem computePct_eq_pyPct (r : String → Nat) :
    computePct (mkValues r) = pyPct (computeTotal (mkValues r)) := by
  simp [computePct, pyPct, mkValues, keys]

theorem computeTotal_mkValues (r : String → Nat) :
    computeTotal (mkValues r) =
      r ("Strategy") + r ("Governance") + r ("Innovation") + r ("Architecture") +
        r ("Validation") + r ("Delivery") + r ("Enablement") + r ("Ecosystem") := by
  simp [computeTotal, mkValues, keys]
  omega

theorem computeTotal_le_40 (r : String → Nat) (h : ∀ k ∈ keys, r k ≤ 5) :
    computeTotal (mkValues r) ≤ 40 := by
  have h1 := h ("Strategy") (by simp [keys])
  have h2 := h ("Governance") (by simp [keys])
  have h3 := h ("Innovation") (by simp [keys])
  have h4 := h ("Architecture") (by simp [keys])
  have h5 := h ("Validation") (by simp [keys])
  have h6 := h ("Delivery") (by simp [keys])
  have h7 := h ("Enablement") (by simp [keys])
  have h8 := h ("Ecosystem") (by simp [keys])
  have hs := computeTotal_mkValues r
  omega

theorem pyPct_table : ∀ t, t ≤ 40 →
    (t ≠ 23 → pyPct t = exactRound t) ∧ (t = 23 → pyPct t = 57) ∧ pyPct t ≤ 100 := by
  decide

/-- The sidebar radio options (the page names, in source order). -/
def pages : List String :=
  ["Overview", "Core Pillars", "Key Activities", "Maturity Diagnostic",
   "Ecosystem Map", "Showcase Mode", "Project List", "Projects Case Studies"]

/-- The radio's initial index:
`pages.index(stored) if stored in pages else 0`. -/
def navIndex (stored : String) : Nat :=
  if stored ∈ pages then pages.indexOf stored else 0

/-- The page selected by the radio for a stored value (reruns with no user
click keep the option at the computed index selected, and the source then
stores it back into the session state). -/
def navSelect (stored : String) : String :=
  pages.getD (navIndex stored) ""

/-- The per-session state kept by the app: the `_page`, `_showcase` and
`_slide` entries of `st.session_state`, together with the slider widget
values that feed the maturity diagnostic. -/
structure SessionState where
  _page : String
  _showcase : Bool
  _slide : Int
  ratings : String → Nat

/-- The state at process start (lines initializing `st.session_state`). -/
def initialSession : SessionState :=
  ⟨"Overview", false, 0, defaultRatings⟩

/-- The Reset State button handler: `for k in ["_slide"]:
st.session_state[k] = 0` — only the slide index is written. -/
def resetState (s : SessionState) : SessionState :=
  ⟨s._page, s._showcase, 0, s.ratings⟩

/-- One pillar record of the `PILLARS` content list. -/
structure Pillar where
  name : String
  tag : String
  points : List String

/-- The `PILLARS` content list (names and tags; the prose points are kept
to reproduce the source data shape). -/
def PILLARS : List Pillar :=
  [⟨"Strategy & Advisory", "Strategy",
    ["Develop enterprise-grade AI roadmaps aligned with business strategy, regulatory requirements, and industry best practices.",
     "Define investment priorities, establish AI maturity benchmarks, and guide organizations on maximizing ROI from AI initiatives."]⟩,
   ⟨"Governance & Compliance", "Governance",
    ["Establish robust AI governance frameworks, policies, and risk controls in line with MAS FEAT, NIST AI RMF, EU AI Act, and SR 11-7.",
     "Ensure responsible adoption of AI through oversight on data usage, model auditability, and regulatory reporting."]⟩,
   ⟨"Innovation & Use Cases", "Innovation",
    ["Identify, prioritize, and deliver high-value AI/ML and Generative AI use cases across customer experience, compliance, operations, and finance.",
     "Incubate new AI-driven business models via pilots and proofs-of-value to accelerate enterprise adoption."]⟩,
   ⟨"Technology & Architecture", "Architecture",
    ["Design scalable AI platforms and reference architectures with MLOps, vector databases, RAG, and agentic AI.",
     "Ensure interoperability across AWS/Azure/GCP with secure data integration and deployment."]⟩,
   ⟨"Validation & Risk Management", "Validation",
    ["Perform independent model validation, stress testing, fairness analysis, and explainability reviews.",
     "Implement continuous monitoring to detect drift, bias, and emerging risks in production."]⟩,
   ⟨"Delivery & Scale", "Delivery",
    ["Implement AI solutions through agile, iterative execution methods.",
     "Scale to enterprise level via automation, cloud-native platforms, and cross-functional coordination."]⟩,
   ⟨"Capability Building", "Enablement",
    ["Build AI literacy across the workforce—from business users to technical teams.",
     "Provide training in prompt engineering, data science, ML engineering, and Responsible AI practices."]⟩,
   ⟨"Partnerships & Ecosystem", "Ecosystem",
    ["Forge collaborations with hyperscalers, research institutions, regulators, and startups.",
     "Leverage ecosystem partnerships for co-innovation and access to emerging technologies."]⟩]

/-- One slide of the Showcase Mode page. -/
structure Slide where
  title : String
  subtitle : String
  body : List String

/-- The `slides` list of the Showcase Mode page (four slides; the second
slide's body lists the pillar names). -/
def slides : List Slide :=
  [⟨"Vision", "From ambition to outcomes — a simple, elegant path to enterprise AI.",
    ["Craft strategy that lands: goals → use cases → architecture → adoption.",
     "Design for explainability, compliance, and trust from day zero."]⟩,
   ⟨"The 8 Pillars", "Resilient systems are built from balanced capabilities.",
    PILLARS.map fun p => p.name⟩,
   ⟨"From Idea to Scale", "Pilot fast. Validate early. Scale what works.",
    ["CoE standardizes patterns and guardrails.",
     "Multi‑agent automations amplify productivity and CX."]⟩,
   ⟨"Maturity in Minutes", "A lightweight diagnostic sparks the right conversation.",
    ["Assess → Prioritize → Roadmap (AIRE™).",
     "Visualize maturity and narrate a 90‑day plan."]⟩]

/-- The Next button handler:
`st.session_state._slide = min(len(slides) - 1, idx + 1)`. -/
def advance_slide (i : Int) : Int :=
  min ((slides.length : Int) - 1) (i + 1)

/-- The Prev button handler:
`st.session_state._slide = max(0, idx - 1)`. -/
def retreat_slide (i : Int) : Int :=
  max 0 (i - 1)

/-- The Prev button's disabled flag: `disabled=(idx == 0)`. -/
def prevDisabled (i : Int) : Bool := i == 0

/-- The Next button's disabled flag: `disabled=(idx == len(slides) - 1)`. -/
def nextDisabled (i : Int) : Bool := i == (slides.length : Int) - 1

/-- Concatenate with a separator, as `str.join`-style joining does inside
`json.dumps` when writing the members of an object. -/
def joinSep (sep : String) : List String → String
  | [] => ""
  | [x] => x
  | x :: xs => x ++ sep ++ joinSep sep xs

/-- One serialized member line of the inner object: four spaces of
2-space-indent nesting, the quoted key, a colon-space, and the value. -/
def memberStr (p : String × Nat) : String :=
  "    \"" ++ p.1 ++ "\": " ++ Nat.repr p.2

/-- The text produced by `json.dumps({"maturity": values}, indent=2)`: a
single-field object whose `maturity` field holds the ratings object,
pretty-printed with 2-space indentation. -/
def dumps (values : List (String × Nat)) : String :=
  "\x7b\n  \"maturity\": \x7b"
    ++ "\n" ++ joinSep (",\n") (values.map memberStr)
    ++ "\n  \x7d\n\x7d"

/-- Drop leading spaces and newlines. -/
def skipWs : List Char → List Char
  | [] => []
  | c :: cs => if c = ' ' ∨ c = '\n' then skipWs cs else c :: cs

/-- Read a quoted string (no escape handling: the writer never escapes). -/
def readQuoted : List Char → Option (String × List Char)
  | '"' :: rest =>
    match rest.dropWhile (fun c => c != '"') with
    | '"' :: rest2 => some ((rest.takeWhile (fun c => c != '"')).asString, rest2)
    | _ => none
  | _ => none

/-- Read a single-digit value (ratings are 0..5). -/
def readDigit : List Char → Option (Nat × List Char)
  | c :: cs => if c.isDigit then some (c.toNat - 48, cs) else none
  | [] => none

/-- Read the `"key": digit` members of an object up to its closing brace,
separated by commas (fuel-bounded recursion). -/
def readMembers : Nat → List Char → Option (List (String × Nat) × List Char)
  | 0, _ => none
  | fuel + 1, cs =>
    match readQuoted (skipWs cs) with
    | none => none
    | some (k, cs1) =>
      match skipWs cs1 with
      | ':' :: cs2 =>
        match readDigit (skipWs cs2) with
        | none => none
        | some (v, cs3) =>
          match skipWs cs3 with
          | ',' :: cs4 =>
            match readMembers fuel cs4 with
            | some (ms, cs5) => some ((k, v) :: ms, cs5)
            | none => none
          | '\x7d' :: cs4 => some ([(k, v)], cs4)
          | _ => none
      | _ => none

/-- Parse a snapshot produced by `dumps`: an object with the single field
`maturity` holding an object of single-digit members.  Returns the parsed
member list. -/
def loads (s : String) : Option (List (String × Nat)) :=
  match skipWs s.data with
  | '\x7b' :: cs =>
    match readQuoted (skipWs cs) with
    | some (k0, cs1) =>
      if k0 = "maturity" then
        match skipWs cs1 with
        | ':' :: cs2 =>
          match skipWs cs2 with
          | '\x7b' :: cs3 =>
            match readMembers (cs3.length + 1) cs3 with
            | some (ms, cs4) =>
              match skipWs cs4 with
              | '\x7d' :: cs5 => if skipWs cs5 = [] then some ms else none
              | _ => none
            | none => none
          | _ => none
        | _ => none
      else none
    | none => none
  | _ => none

/-- Keys whose characters need no JSON escaping and are not whitespace. -/
def plainKey (k : String) : Prop :=
  ∀ c ∈ k.data, c ≠ '"' ∧ c ≠ ' ' ∧ c ≠ '\n'

instance (k : String) : Decidable (plainKey k) := by
  unfold plainKey; infer_instance

theorem takeWhile_quote (xs ys : List Char) (h : ∀ c ∈ xs, c ≠ '"') :
    (xs ++ '"' :: ys).takeWhile (fun c => c != '"') = xs := by
  induction xs with
  | nil => simp [List.takeWhile]
  | cons a l ih =>
    have ha : (a != '"') = true := by simpa using h a (by simp)
    simp only [List.cons_append, List.takeWhile]
    simp [ha, ih fun c hc => h c (by simp [hc])]

theorem dropWhile_quote (xs ys : List Char) (h : ∀ c ∈ xs, c ≠ '"') :
    (xs ++ '"' :: ys).dropWhile (fun c => c != '"') = '"' :: ys := by
  induction xs with
  | nil => simp [List.dropWhile]
  | cons a l ih =>
    have ha : (a != '"') = true := by simpa using h a (by simp)
    simp only [List.cons_append, List.dropWhile]
    simp [ha, ih fun c hc => h c (by simp [hc])]

theorem asString_data (s : String) : s.data.asString = s := by
  cases s; rfl

theorem readQuoted_key (k : String) (ys : List Char) (h : ∀ c ∈ k.data, c ≠ '"') :
    readQuoted ('"' :: (k.data ++ '"' :: ys)) = some (k, ys) := by
  simp [readQuoted, dropWhile_quote _ _ h, takeWhile_quote _ _ h, asString_data]

theorem digitChar_spec (v : Nat) (h : v ≤ 9) :
    Nat.repr v = (Nat.digitChar v).toString ∧ (Nat.digitChar v).isDigit = true ∧
      (Nat.digitChar v).toNat - 48 = v ∧ (Nat.digitChar v) ≠ ' ' ∧ (Nat.digitChar v) ≠ '\n' ∧
      (Nat.digitChar v).toString.data = [Nat.digitChar v] := by
  interval_cases v <;> exact ⟨rfl, rfl, rfl, by decide, by decide, rfl⟩

theorem readMembers_spec (ms : List (String × Nat)) :
    ∀ (fuel : Nat) (rest : List Char), ms ≠ [] → ms.length ≤ fuel →
    (∀ p ∈ ms, plainKey p.1 ∧ p.2 ≤ 9) →
    readMembers fuel
      ('\n' :: ((joinSep (",\n") (ms.map memberStr)).data ++ '\n' :: ' ' :: ' ' :: '\x7d' :: rest))
      = some (ms, rest) := by
  induction ms with
  | nil => intro _ _ hne; exact absurd rfl hne
  | cons p ms ih =>
    intro fuel rest _ hlen hgood
    obtain ⟨fuel, rfl⟩ : ∃ f, fuel = f + 1 := by
      cases fuel with
      | zero => simp at hlen
      | succ f => exact ⟨f, rfl⟩
    obtain ⟨hk, hv⟩ := hgood p (by simp)
    obtain ⟨hrepr, hdig, htoNat, hsp, hnl, hdata⟩ := digitChar_spec p.2 hv
    have hkq : ∀ c ∈ p.1.data, c ≠ '"' := fun c hc => (hk c hc).1
    have HQ := fun ys => readQuoted_key p.1 ys hkq
    have d1 : ("    \"").data = ' ' :: ' ' :: ' ' :: ' ' :: '"' :: [] := rfl
    have d2 : ("\": ").data = '"' :: ':' :: ' ' :: [] := rfl
    cases ms with
    | nil =>
      have hjoin : joinSep (",\n") [memberStr p] = memberStr p := rfl
      rw [List.map_cons, List.map_nil, hjoin]
      simp only [memberStr, hrepr, String.data_append, d1, d2, hdata,
        List.cons_append, List.nil_append, List.append_assoc]
      simp only [readMembers, skipWs]
      simp [HQ, readDigit, hdig, htoNat, hsp, hnl, skipWs]
    | cons q ms' =>
      have hjoin : joinSep (",\n") (memberStr p :: memberStr q :: List.map memberStr ms') =
          memberStr p ++ ",\n" ++ joinSep (",\n") (memberStr q :: List.map memberStr ms') := rfl
      rw [List.map_cons, List.map_cons, hjoin]
      have IH := ih fuel rest (by simp) (by simpa using Nat.le_of_succ_le_succ hlen)
        (fun x hx => hgood x (by simp [hx]))
      have d3 : (",\n").data = ',' :: '\n' :: [] := rfl
      simp only [List.map_cons, memberStr] at IH
      simp only [memberStr, hrepr, String.data_append, d1, d2, d3, hdata,
        List.cons_append, List.nil_append, List.append_assoc]
      simp only [readMembers, skipWs]
      simp [HQ, readDigit, hdig, htoNat, hsp, hnl, skipWs, IH]

theorem loads_dumps (r : String → Nat) (h : ∀ k ∈ keys, r k ≤ 5) :
    loads (dumps (mkValues r)) = some (mkValues r) := by
  have hplain : ∀ k ∈ keys, plainKey k := by
    intro k hk
    fin_cases hk <;> decide
  have hgood : ∀ p ∈ mkValues r, plainKey p.1 ∧ p.2 ≤ 9 := by
    intro p hp
    obtain ⟨k, hk, rfl⟩ := List.mem_map.1 hp
    exact ⟨hplain k hk, le_trans (h k hk) (by omega)⟩
  have hne : mkValues r ≠ [] := by simp [mkValues, keys]
  have hlen : (mkValues r).length = 8 := by simp [mkValues, keys]
  have dH : ("\x7b\n  \"maturity\": \x7b").data =
      '\x7b' :: '\n' :: ' ' :: ' ' :: '"' :: 'm' :: 'a' :: 't' :: 'u' :: 'r' :: 'i' :: 't' :: 'y' ::
        '"' :: ':' :: ' ' :: '\x7b' :: [] := rfl
  have dN : ("\n").data = ['\n'] := rfl
  have dT : ("\n  \x7d\n\x7d").data = '\n' :: ' ' :: ' ' :: '\x7d' :: '\n' :: '\x7d' :: [] := rfl
  have HQm : ∀ ys, readQuoted ('"' :: 'm' :: 'a' :: 't' :: 'u' :: 'r' :: 'i' :: 't' :: 'y' :: '"' :: ys)
      = some ("maturity", ys) := by
    intro ys
    have hm := readQuoted_key ("maturity") ys (by decide)
    rw [show ("maturity").data = 'm' :: 'a' :: 't' :: 'u' :: 'r' :: 'i' :: 't' :: 'y' :: [] from rfl] at hm
    simpa using hm
  have RMgen : ∀ fuel, (mkValues r).length ≤ fuel →
      readMembers fuel
        ('\n' :: ((joinSep (",\n") (List.map memberStr (mkValues r))).data ++
          '\n' :: ' ' :: ' ' :: '\x7d' :: '\n' :: '\x7d' :: []))
        = some (mkValues r, '\n' :: '\x7d' :: []) :=
    fun fuel hf => readMembers_spec (mkValues r) fuel ('\n' :: '\x7d' :: []) hne hf hgood
  simp only [loads, dumps, String.data_append, dH, dN, dT,
    List.cons_append, List.nil_append, List.append_assoc]
  simp [skipWs, HQm]
  rw [RMgen _ (by rw [hlen]; omega)]
  simp [skipWs]

theorem computeTotal_update (r : String → Nat) (k : String) (hk : k ∈ keys) :
    computeTotal (mkValues (Function.update r k (r k + 1))) =
      computeTotal (mkValues r) + 1 := by
  fin_cases hk <;> simp [computeTotal, mkValues, keys, Function.update] <;> omega

/-- C1 counterexample: at ratings with total 23 the scorer outputs 57%,
while the exact-arithmetic round(total / 40 × 100) is 58 — the percentage
equation of the claim fails at this input. -/
theorem maturity_exact_round_counterexample :
    computeTotal (mkValues ratings23) = 23 ∧
      computePct (mkValues ratings23) = 57 ∧
      exactRound 23 = 58 ∧
      computePct (mkValues ratings23) ≠ exactRound (computeTotal (mkValues ratings23)) := by
  decide

/-- C1 (amended): for every ratings mapping of the 8 axes into [0,5],
total is the sum of the 8 ratings; the percentage is Python's round of the
binary64 evaluation of total / 40 × 100, which equals the exact
round(total / 40 × 100) for every total except 23 (where it is 57 rather
than 58); and the percentage always lies in [0, 100]. -/
theorem maturity_score_amended_spec (r : String → Nat) (h : ∀ k ∈ keys, r k ≤ 5) :
    computeTotal (mkValues r) =
      r ("Strategy") + r ("Governance") + r ("Innovation") + r ("Architecture") +
        r ("Validation") + r ("Delivery") + r ("Enablement") + r ("Ecosystem") ∧
    computePct (mkValues r) = pyPct (computeTotal (mkValues r)) ∧
    (computeTotal (mkValues r) ≠ 23 →
      computePct (mkValues r) = exactRound (computeTotal (mkValues r))) ∧
    (computeTotal (mkValues r) = 23 → computePct (mkValues r) = 57) ∧
    0 ≤ computePct (mkValues r) ∧ computePct (mkValues r) ≤ 100 := by
  have ht := computeTotal_le_40 r h
  have htab := pyPct_table (computeTotal (mkValues r)) ht
  have hb := computePct_eq_pyPct r
  refine ⟨computeTotal_mkValues r, hb, ?_, ?_, Nat.zero_le _, ?_⟩
  · intro hne; rw [hb]; exact htab.1 hne
  · intro he; rw [hb]; exact htab.2.1 he
  · rw [hb]; exact htab.2.2

/-- Witness for C1: the all-twos ratings satisfy the range hypothesis and
give a percentage within bounds (concretely 40). -/
theorem maturity_score_amended_witness :
    computePct (mkValues fun _ => 2) ≤ 100 ∧ computePct (mkValues fun _ => 2) = 40 :=
  ⟨(maturity_score_amended_spec (fun _ => 2) (by decide)).2.2.2.2.2, by decide⟩

/-- C2: the three-band rule of the Interpretation legend places the
boundaries exactly: 30 is Foundational, 31 and 65 are Emerging, 66 is
Scaling. -/
theorem band_boundary_exactness :
    band 30 = "Foundational" ∧ band 31 = "Emerging" ∧
      band 65 = "Emerging" ∧ band 66 = "Scaling" := by
  decide

/-- C3: with the four showcase slides, advancing from i yields
min(i+1, N-1) and retreating yields max(i-1, 0); both endpoints are fixed
points of arbitrarily many repetitions. -/
theorem slide_navigation_spec :
    slides.length = 4 ∧
    (∀ i : Int, 0 ≤ i → i ≤ (slides.length : Int) - 1 →
      advance_slide i = min (i + 1) ((slides.length : Int) - 1) ∧
      retreat_slide i = max (i - 1) 0) ∧
    (∀ n : Nat, advance_slide^[n] ((slides.length : Int) - 1) = (slides.length : Int) - 1) ∧
    (∀ n : Nat, retreat_slide^[n] 0 = 0) := by
  refine ⟨rfl, ?_, ?_, ?_⟩
  · intro i _ _
    exact ⟨min_comm _ _, max_comm _ _⟩
  · intro n
    exact Function.iterate_fixed (by decide) n
  · intro n
    exact Function.iterate_fixed (by decide) n

/-- Witness for C3 at slide index 1. -/
theorem slide_navigation_witness :
    advance_slide 1 = min (1 + 1) ((slides.length : Int) - 1) ∧
      retreat_slide 1 = max (1 - 1) 0 :=
  ⟨(slide_navigation_spec.2.1 1 (by decide) (by decide)).1,
   (slide_navigation_spec.2.1 1 (by decide) (by decide)).2⟩

/-- C4: a stored page value outside the option list makes the radio fall
back to index 0, the first member "Overview" (with no failure path in the
model, which is total); stored values inside the list are preserved. -/
theorem nav_fallback_spec :
    (∀ stored : String, stored ∉ pages → navSelect stored = "Overview") ∧
    (∀ stored : String, stored ∈ pages → navSelect stored = stored) ∧
    pages.getD 0 "" = "Overview" := by
  refine ⟨?_, ?_, rfl⟩
  · intro stored h
    unfold navSelect navIndex
    rw [if_neg h]
    rfl
  · intro stored h
    fin_cases h <;> decide

/-- Witness for C4: an unknown selector falls back, a known one is kept. -/
theorem nav_fallback_witness :
    navSelect ("Bogus") = "Overview" ∧ navSelect ("Showcase Mode") = "Showcase Mode" :=
  ⟨nav_fallback_spec.1 ("Bogus") (by decide),
   nav_fallback_spec.2.1 ("Showcase Mode") (by decide)⟩

/-- C5: the exported snapshot is the single-field `maturity` object of the
ratings, pretty-printed with 2-space indentation (the second conjunct pins
the exact text for the default ratings), and parsing the exported text
recovers exactly the original mapping. -/
theorem export_roundtrip_spec :
    (∀ r : String → Nat, (∀ k ∈ keys, r k ≤ 5) →
      loads (dumps (mkValues r)) = some (mkValues r)) ∧
    dumps (mkValues defaultRatings) =
      "\x7b\n  \"maturity\": \x7b\n    \"Strategy\": 3,\n    \"Governance\": 2,\n    \"Innovation\": 3,\n    \"Architecture\": 2,\n    \"Validation\": 2,\n    \"Delivery\": 3,\n    \"Enablement\": 2,\n    \"Ecosystem\": 2\n  \x7d\n\x7d" :=
  ⟨loads_dumps, by decide⟩

/-- Witness for C5 at the default ratings. -/
theorem export_roundtrip_witness :
    loads (dumps (mkValues defaultRatings)) = some (mkValues defaultRatings) :=
  export_roundtrip_spec.1 defaultRatings (by decide)

/-- C6: raising any single in-range axis rating by one never decreases the
computed percentage. -/
theorem pct_monotonicity_spec (r : String → Nat) (k : String)
    (h : ∀ k' ∈ keys, r k' ≤ 5) (hk : k ∈ keys) (hlt : r k < 5) :
    computePct (mkValues r) ≤ computePct (mkValues (Function.update r k (r k + 1))) := by
  have hup := computeTotal_update r k hk
  have hs := computeTotal_mkValues r
  have h1 := h ("Strategy") (by simp [keys])
  have h2 := h ("Governance") (by simp [keys])
  have h3 := h ("Innovation") (by simp [keys])
  have h4 := h ("Architecture") (by simp [keys])
  have h5 := h ("Validation") (by simp [keys])
  have h6 := h ("Delivery") (by simp [keys])
  have h7 := h ("Enablement") (by simp [keys])
  have h8 := h ("Ecosystem") (by simp [keys])
  have ht39 : computeTotal (mkValues r) ≤ 39 := by
    fin_cases hk <;> omega
  have hmono : ∀ t ≤ 39, pyPct t ≤ pyPct (t + 1) := by decide
  rw [computePct_eq_pyPct, computePct_eq_pyPct, hup]
  exact hmono _ ht39

/-- Witness for C6: raising the Strategy axis of the all-twos ratings. -/
theorem pct_monotonicity_witness :
    computePct (mkValues fun _ => 2) ≤
      computePct (mkValues (Function.update (fun _ => 2) ("Strategy") (2 + 1))) :=
  pct_monotonicity_spec (fun _ => 2) ("Strategy") (by decide) (by decide) (by decide)

/-- C7: the Reset State handler sets the slide index to 0 from every
session state. -/
theorem reset_slide_spec : ∀ s : SessionState, (resetState s)._slide = 0 :=
  fun _ => rfl

/-- C8: the counter saturates inside [0, N-1], and the Prev/Next disabled
flags hold exactly at the endpoints. -/
theorem endpoint_controls_spec :
    (∀ i : Int, 0 ≤ i → i ≤ (slides.length : Int) - 1 →
      0 ≤ advance_slide i ∧ advance_slide i ≤ (slides.length : Int) - 1 ∧
      0 ≤ retreat_slide i ∧ retreat_slide i ≤ (slides.length : Int) - 1) ∧
    advance_slide ((slides.length : Int) - 1) = (slides.length : Int) - 1 ∧
    retreat_slide 0 = 0 ∧
    (∀ i : Int, prevDisabled i = true ↔ i = 0) ∧
    (∀ i : Int, nextDisabled i = true ↔ i = (slides.length : Int) - 1) := by
  have hlen : slides.length = 4 := rfl
  refine ⟨?_, by decide, by decide, ?_, ?_⟩
  · intro i h0 h3
    rw [hlen] at h3 ⊢
    unfold advance_slide retreat_slide
    rw [hlen]
    norm_num
    omega
  · intro i
    simp [prevDisabled]
  · intro i
    simp [nextDisabled]

/-- Witness for C8 at slide index 2 and the left endpoint. -/
theorem endpoint_controls_witness :
    0 ≤ advance_slide 2 ∧ prevDisabled 0 = true :=
  ⟨(endpoint_controls_spec.1 2 (by decide) (by decide)).1,
   (endpoint_controls_spec.2.2.2.1 0).mpr rfl⟩

/-- C9: Reset State is frame-preserving on everything but the slide index:
page selection, showcase flag and ratings are unchanged, the slide is 0. -/
theorem reset_frame_spec : ∀ s : SessionState,
    (resetState s)._page = s._page ∧ (resetState s)._showcase = s._showcase ∧
      (resetState s).ratings = s.ratings ∧ (resetState s)._slide = 0 :=
  fun _ => ⟨rfl, rfl, rfl, rfl⟩

/-- C10 counterexample: total 23 makes total × 2.5 end in .5, yet the
computed percentage is 57, an odd number — not the nearest even integer. -/
theorem banker_rounding_counterexample :
    computeTotal (mkValues ratings23) = 23 ∧ 5 * 23 % 2 = 1 ∧
      computePct (mkValues ratings23) = 57 ∧ 57 % 2 = 1 := by
  decide

/-- C10 (amended): the percentage computation rounds half to even on the
binary64 value of total / 40 × 100: for every in-range total with
total × 2.5 ending in .5 other than 23, the result is the even neighbour
of the half (totals 1, 3, 19 give 2, 8, 48); total 23 gives 57 because the
float evaluation falls just below 57.5. -/
theorem banker_rounding_amended_spec :
    (∀ r : String → Nat, (∀ k ∈ keys, r k ≤ 5) →
      5 * computeTotal (mkValues r) % 2 = 1 → computeTotal (mkValues r) ≠ 23 →
      computePct (mkValues r) % 2 = 0 ∧
        (2 * computePct (mkValues r) = 5 * computeTotal (mkValues r) + 1 ∨
         2 * computePct (mkValues r) + 1 = 5 * computeTotal (mkValues r))) ∧
    computePct (mkValues ratings1) = 2 ∧ computePct (mkValues ratings3) = 8 ∧
      computePct (mkValues ratings19) = 48 ∧ computePct (mkValues ratings23) = 57 := by
  refine ⟨?_, by decide, by decide, by decide, by decide⟩
  intro r hr hodd hne
  have ht := computeTotal_le_40 r hr
  have hb := computePct_eq_pyPct r
  have key : ∀ t ≤ 40, 5 * t % 2 = 1 → t ≠ 23 →
      pyPct t % 2 = 0 ∧ (2 * pyPct t = 5 * t + 1 ∨ 2 * pyPct t + 1 = 5 * t) := by
    decide
  rw [hb]
  exact key _ ht hodd hne

/-- Witness for C10 at the total-1 ratings. -/
theorem banker_rounding_amended_witness :
    computePct (mkValues ratings1) % 2 = 0 ∧
      (2 * computePct (mkValues ratings1) = 5 * computeTotal (mkValues ratings1) + 1 ∨
       2 * computePct (mkValues ratings1) + 1 = 5 * computeTotal (mkValues ratings1)) :=
  banker_rounding_amended_spec.1 ratings1 (by decide) (by decide) (by decide)
